import Mathlib

/-!
# Verification of the Keplerian-orbit core used by the case-study notebooks

This development embeds, over the real numbers, the numerical formulas that
appear in the case-study notebooks (eccentricity-duration density correction,
position-angle conversion and wrapping, phase folding) together with a model
of the Kepler-equation solver and mass relation that the notebooks call in
the external orbit library, and proves the stated properties about them.
-/

noncomputable section

namespace CaseStudies

open Real

/-- Embeds `g = (1 + ecc * np.sin(omega)) / np.sqrt(1 - ecc**2)` from the
TESS tutorial (the Dawson--Johnson `g` factor). -/
def g (ecc omega : ℝ) : ℝ := (1 + ecc * Real.sin omega) / Real.sqrt (1 - ecc ^ 2)

/-- Embeds `rho = rho_circ / g**3` from the TESS tutorial: the map from the
stellar density implied by a circular fit to the true stellar density. -/
def rho_star_circular_to_true (rho_circ ecc omega : ℝ) : ℝ :=
  rho_circ / g ecc omega ^ 3

/-- Embeds Python float modulo `x % p` (for `p > 0` the result lies in
`[0, p)`): `x - p * floor (x / p)`. -/
def pymod (x p : ℝ) : ℝ := x - p * ⌊x / p⌋

/-- Embeds `folded = ((t - tp + 0.5 * period) % period) / period` from the
multi-instrument RV notebook. -/
def folded (t tp period : ℝ) : ℝ := pymod (t - tp + 0.5 * period) period / period

/-- Embeds `deg = np.pi / 180.0` from the astrometric notebook. -/
def deg : ℝ := Real.pi / 180

/-- Embeds the position-angle data conversion from the astrometric notebook:
`theta_data = PA * deg` followed by `theta_data[theta_data > np.pi] -= 2 * np.pi`,
applied to one position-angle measurement `pa` given in degrees. -/
def theta_data_of_PA (pa : ℝ) : ℝ :=
  if pa * deg > Real.pi then pa * deg - 2 * Real.pi else pa * deg

/-- The two-argument arctangent `atan2 y x`, realized as the argument of the
complex number `x + y i`; its range is `(-pi, pi]`. -/
def arctan2 (y x : ℝ) : ℝ := Complex.arg (x + y * Complex.I)

/-- Embeds the wrapped position-angle residual from the astrometric notebook:
`theta_diff = tt.arctan2(tt.sin(theta_model - theta_data), tt.cos(theta_model - theta_data))`. -/
def theta_diff (theta_model theta_obs : ℝ) : ℝ :=
  arctan2 (Real.sin (theta_model - theta_obs)) (Real.cos (theta_model - theta_obs))

/-- Modelled from the spec: the position angle returned by the observable
projector `relative_angles` (implemented in the external orbit library, not in
this repository) is `theta = atan2(Y, X)` for the observer-frame relative
position `(X, Y)`, normalized to `(-pi, pi]`. -/
def position_angle (X Y : ℝ) : ℝ := arctan2 Y X

theorem g_zero_ecc (omega : ℝ) : g 0 omega = 1 := by
  simp [g]

theorem g_pos {ecc : ℝ} (omega : ℝ) (h0 : 0 ≤ ecc) (h1 : ecc < 1) :
    0 < g ecc omega := by
  have hnum : 0 < 1 + ecc * Real.sin omega := by
    have hsin : -1 ≤ Real.sin omega := Real.neg_one_le_sin omega
    nlinarith [Real.sin_le_one omega]
  have hden : 0 < Real.sqrt (1 - ecc ^ 2) := by
    apply Real.sqrt_pos.mpr
    nlinarith
  exact div_pos hnum hden

theorem pymod_eq_fract_mul {x p : ℝ} (hp : p ≠ 0) :
    pymod x p = p * Int.fract (x / p) := by
  rw [pymod, Int.fract]
  field_simp

/-- C9: for eccentricity in `[0, 1)` and any omega, the Dawson--Johnson factor
`g` is strictly positive, hence `g ^ 3` is nonzero and the density correction
`rho_circ / g ^ 3` never divides by zero. -/
theorem g_pos_and_cube_ne_zero (ecc omega : ℝ) (h0 : 0 ≤ ecc) (h1 : ecc < 1) :
    0 < g ecc omega ∧ g ecc omega ^ 3 ≠ 0 := by
  have hg := g_pos omega h0 h1
  exact ⟨hg, pow_ne_zero 3 hg.ne'⟩

theorem g_pos_and_cube_ne_zero_witness :
    0 < g (1 / 2) 0 ∧ g (1 / 2) 0 ^ 3 ≠ 0 :=
  g_pos_and_cube_ne_zero (1 / 2) 0 (by norm_num) (by norm_num)

/-- C1: the density correction returns `rho_circ / g ^ 3` with
`g = (1 + e sin omega) / sqrt (1 - e^2)`, and for `e = 0` it returns
`rho_circ` unchanged for every `omega`. -/
theorem rho_star_circular_to_true_spec :
    (∀ rho_circ ecc omega : ℝ,
      rho_star_circular_to_true rho_circ ecc omega =
        rho_circ / ((1 + ecc * Real.sin omega) / Real.sqrt (1 - ecc ^ 2)) ^ 3) ∧
    (∀ rho_circ omega : ℝ,
      rho_star_circular_to_true rho_circ 0 omega = rho_circ) := by
  constructor
  · intro rho_circ ecc omega
    rfl
  · intro rho_circ omega
    rw [rho_star_circular_to_true, g_zero_ecc]
    norm_num

/-- C10: for every time `t`, reference epoch `tp` and period `p > 0`, the
folded phase `((t - tp + 0.5 * p) % p) / p` lies in `[0, 1)`. -/
theorem folded_mem_Ico (t tp p : ℝ) (hp : 0 < p) :
    0 ≤ folded t tp p ∧ folded t tp p < 1 := by
  have h : folded t tp p = Int.fract ((t - tp + 0.5 * p) / p) := by
    rw [folded, pymod_eq_fract_mul hp.ne']
    field_simp
  rw [h]
  exact ⟨Int.fract_nonneg _, Int.fract_lt_one _⟩

theorem folded_mem_Ico_witness :
    0 ≤ folded 1 0 2 ∧ folded 1 0 2 < 1 :=
  folded_mem_Ico 1 0 2 (by norm_num)

theorem arctan2_cos_sin {t : ℝ} (ht : t ∈ Set.Ioc (-Real.pi) Real.pi) :
    arctan2 (Real.sin t) (Real.cos t) = t := by
  rw [arctan2, Complex.ofReal_cos, Complex.ofReal_sin]
  exact Complex.arg_cos_add_sin_mul_I ht

/-- C2: the likelihood residual is the wrapped difference
`atan2 (sin (theta_model - theta_obs)) (cos (theta_model - theta_obs))`, so at
`theta_model = 0.01` and `theta_obs = 2 pi - 0.01` the residual is exactly
`0.02`, not the raw difference `0.02 - 2 pi` of magnitude about `6.27`. -/
theorem theta_diff_wraps :
    theta_diff 0.01 (2 * Real.pi - 0.01) = 0.02 := by
  have h : (0.01 : ℝ) - (2 * Real.pi - 0.01) = 0.02 - 2 * Real.pi := by ring
  rw [theta_diff, h, Real.sin_sub_two_pi, Real.cos_sub_two_pi]
  refine arctan2_cos_sin ⟨?_, ?_⟩
  · nlinarith [Real.pi_gt_three]
  · nlinarith [Real.pi_gt_three]

/-- C3: every position angle produced by the observable projector lies in
`(-pi, pi]`: both the `theta` output of `relative_angles` (modelled from the
spec as `atan2 Y X`) and the converted position-angle data (degrees in
`[0, 360]` mapped to radians with values above `pi` shifted down by `2 pi`). -/
theorem position_angle_mem_Ioc :
    (∀ X Y : ℝ, -Real.pi < position_angle X Y ∧ position_angle X Y ≤ Real.pi) ∧
    (∀ pa : ℝ, 0 ≤ pa → pa ≤ 360 →
      -Real.pi < theta_data_of_PA pa ∧ theta_data_of_PA pa ≤ Real.pi) := by
  constructor
  · intro X Y
    exact ⟨Complex.neg_pi_lt_arg _, Complex.arg_le_pi _⟩
  · intro pa h0 h360
    have hpi := Real.pi_pos
    rw [theta_data_of_PA, deg]
    split
    · rename_i hgt
      have hub : pa * (Real.pi / 180) ≤ 2 * Real.pi := by nlinarith
      constructor
      · nlinarith
      · nlinarith
    · rename_i hle
      push_neg at hle
      constructor
      · nlinarith
      · exact hle

theorem position_angle_mem_Ioc_witness :
    -Real.pi < theta_data_of_PA 270 ∧ theta_data_of_PA 270 ≤ Real.pi :=
  position_angle_mem_Ioc.2 270 (by norm_num) (by norm_num)

/-- Modelled from the spec: the Kepler equation `M = E - e sin E` relating the
eccentric anomaly `E` to the mean anomaly `M` at eccentricity `e` (section 4.1
of the spec); the solver inverts this map. -/
def kepler (ecc E : ℝ) : ℝ := E - ecc * Real.sin E

theorem abs_sin_sub_sin_le (a b : ℝ) : |Real.sin b - Real.sin a| ≤ |b - a| := by
  rw [Real.sin_sub_sin]
  calc |2 * Real.sin ((b - a) / 2) * Real.cos ((b + a) / 2)|
      = 2 * |Real.sin ((b - a) / 2)| * |Real.cos ((b + a) / 2)| := by
        rw [abs_mul, abs_mul]
        norm_num
    _ ≤ 2 * |(b - a) / 2| * 1 := by
        have hs := Real.abs_sin_le_abs (x := (b - a) / 2)
        have hc := Real.abs_cos_le_one ((b + a) / 2)
        have hpos : (0 : ℝ) ≤ 2 * |Real.sin ((b - a) / 2)| := by positivity
        nlinarith [abs_nonneg ((b - a) / 2)]
    _ = |b - a| := by
        rw [abs_div]
        norm_num
        ring

theorem kepler_strictMono {ecc : ℝ} (h0 : 0 ≤ ecc) (h1 : ecc < 1) :
    StrictMono (kepler ecc) := by
  intro a b hab
  have hs := abs_le.mp (abs_sin_sub_sin_le a b)
  rw [abs_of_pos (sub_pos.mpr hab)] at hs
  rw [kepler, kepler]
  nlinarith [mul_nonneg h0 (sub_nonneg.mpr hs.2),
    mul_nonneg h0 (sub_nonneg.mpr (neg_le_sub_iff_le_add.mp hs.1))]

theorem kepler_continuous (ecc : ℝ) : Continuous (kepler ecc) :=
  continuous_id.sub (continuous_const.mul Real.continuous_sin)

theorem kepler_surjective {ecc : ℝ} (h0 : 0 ≤ ecc) :
    Function.Surjective (kepler ecc) := by
  apply (kepler_continuous ecc).surjective
  · apply Filter.tendsto_atTop_mono (f := fun E : ℝ => E - ecc)
    · intro E
      have := Real.sin_le_one E
      rw [kepler]
      nlinarith
    · simpa [sub_eq_add_neg] using
        Filter.tendsto_atTop_add_const_right Filter.atTop (-ecc) Filter.tendsto_id
  · apply Filter.tendsto_atBot_mono (g := fun E : ℝ => E + ecc)
    · intro E
      have := Real.neg_one_le_sin E
      rw [kepler]
      nlinarith
    · exact Filter.tendsto_atBot_add_const_right Filter.atBot ecc Filter.tendsto_id

/-- Modelled from the spec: `solve_kepler` returns the eccentric anomaly `E`
satisfying `M = E - e sin E` for eccentricity in `[0, 1)` (section 4.1 of the
spec; the iterative implementation lives in the external orbit library, not in
this repository), with the circular case `e = 0` special-cased to return `M`
directly. -/
def solve_kepler (ecc M : ℝ) : ℝ :=
  if ecc = 0 then M else Function.invFun (kepler ecc) M

theorem kepler_solve_kepler {ecc : ℝ} (h0 : 0 ≤ ecc) (M : ℝ) :
    kepler ecc (solve_kepler ecc M) = M := by
  rw [solve_kepler]
  split
  · rename_i h
    subst h
    simp [kepler]
  · exact Function.invFun_eq (kepler_surjective h0 M)

theorem kepler_add_two_pi (ecc x : ℝ) :
    kepler ecc (x + 2 * Real.pi) = kepler ecc x + 2 * Real.pi := by
  rw [kepler, kepler, Real.sin_add_two_pi]
  ring

/-- C5: for every eccentricity in `[0, 0.999]` and mean anomaly in
`[-10 pi, 10 pi]`, the eccentric anomaly returned by the solver reproduces the
mean anomaly: the residual `|M - (E - e sin E)|` is below the `1e-10`
tolerance (the spec-modelled solver satisfies the Kepler equation exactly). -/
theorem solve_kepler_round_trip (ecc M : ℝ) (h0 : 0 ≤ ecc) (h1 : ecc ≤ 0.999)
    (hM1 : -(10 * Real.pi) ≤ M) (hM2 : M ≤ 10 * Real.pi) :
    |M - kepler ecc (solve_kepler ecc M)| < 1e-10 := by
  rw [kepler_solve_kepler h0, sub_self, abs_zero]
  norm_num

theorem solve_kepler_round_trip_witness :
    |0 - kepler 0 (solve_kepler 0 0)| < 1e-10 :=
  solve_kepler_round_trip 0 0 le_rfl (by norm_num)
    (neg_nonpos.mpr (by positivity)) (by positivity)

/-- C6: at eccentricity `0` the solver returns `E = M` exactly for every mean
anomaly, through the special-cased circular branch rather than the iterative
inverse. -/
theorem solve_kepler_zero_ecc (M : ℝ) : solve_kepler 0 M = M := by
  rw [solve_kepler, if_pos rfl]

/-- C7: the solver accepts unrestricted real mean anomalies and is periodic:
shifting the mean anomaly by `2 pi` shifts the returned eccentric anomaly by
exactly `2 pi`, the consistently reduced `2 pi` ambiguity of `E`. -/
theorem solve_kepler_periodic (ecc M : ℝ) (h0 : 0 ≤ ecc) (h1 : ecc < 1) :
    solve_kepler ecc (M + 2 * Real.pi) = solve_kepler ecc M + 2 * Real.pi := by
  apply (kepler_strictMono h0 h1).injective
  rw [kepler_solve_kepler h0, kepler_add_two_pi, kepler_solve_kepler h0]

theorem solve_kepler_periodic_witness :
    solve_kepler 0 (0 + 2 * Real.pi) = solve_kepler 0 0 + 2 * Real.pi :=
  solve_kepler_periodic 0 0 le_rfl (by norm_num)

/-- Embeds `au_to_R_sun = (constants.au / constants.R_sun).value` from the
astrometric notebook, with the IAU values used by the constants package:
`au = 1.495978707e11 m` and `R_sun = 6.957e8 m`. -/
def au_to_R_sun : ℝ := 1.495978707e11 / 6.957e8

/-- Modelled from the spec: Newton's gravitational constant times one solar
mass, expressed in solar radii cubed per day squared (from the IAU nominal
`GM_sun = 1.3271244e20 m^3 s^-2`), the unit system the orbit library works
in (semi-major axis in solar radii, period in days, mass in solar masses). -/
def G_grav : ℝ := 1.3271244e20 * 86400 ^ 2 / 6.957e8 ^ 3

/-- Modelled from the spec: `orbit.m_total`, the total system mass derived
from Kepler's third law, `M_total = 4 pi^2 a^3 / (G P^2)`, as a pure function
of semi-major axis (solar radii) and period (days); the implementation lives
in the external orbit library, not in this repository. -/
def M_total (a P : ℝ) : ℝ := 4 * Real.pi ^ 2 * a ^ 3 / (G_grav * P ^ 2)

/-- C4: for a semi-major axis of one astronomical unit (converted to solar
radii) and a period of one year (365.25 days), the total mass computed from
Kepler's third law is one solar mass to within one percent. -/
theorem M_total_one_solar_mass :
    |M_total au_to_R_sun 365.25 - 1| < 0.01 := by
  have h1 : 3.141592 < Real.pi := Real.pi_gt_d6
  have h2 : Real.pi < 3.141593 := Real.pi_lt_d6
  have hp2l : (3.141592 : ℝ) ^ 2 < Real.pi ^ 2 := by nlinarith
  have hp2u : Real.pi ^ 2 < (3.141593 : ℝ) ^ 2 := by nlinarith
  have ha3 : (0 : ℝ) < (1.495978707e11 / 6.957e8 : ℝ) ^ 3 := by norm_num
  have hD : (0 : ℝ) <
      1.3271244e20 * 86400 ^ 2 / 6.957e8 ^ 3 * (365.25 : ℝ) ^ 2 := by norm_num
  have hlow : (0.99 : ℝ) <
      4 * Real.pi ^ 2 * (1.495978707e11 / 6.957e8 : ℝ) ^ 3 /
        (1.3271244e20 * 86400 ^ 2 / 6.957e8 ^ 3 * (365.25 : ℝ) ^ 2) := by
    rw [lt_div_iff hD]
    have base : (0.99 : ℝ) *
        (1.3271244e20 * 86400 ^ 2 / 6.957e8 ^ 3 * (365.25 : ℝ) ^ 2) <
        4 * (3.141592 : ℝ) ^ 2 * (1.495978707e11 / 6.957e8 : ℝ) ^ 3 := by
      norm_num
    nlinarith [hp2l]
  have hhigh :
      4 * Real.pi ^ 2 * (1.495978707e11 / 6.957e8 : ℝ) ^ 3 /
        (1.3271244e20 * 86400 ^ 2 / 6.957e8 ^ 3 * (365.25 : ℝ) ^ 2) <
      (1.01 : ℝ) := by
    rw [div_lt_iff hD]
    have base : 4 * (3.141593 : ℝ) ^ 2 * (1.495978707e11 / 6.957e8 : ℝ) ^ 3 <
        (1.01 : ℝ) *
        (1.3271244e20 * 86400 ^ 2 / 6.957e8 ^ 3 * (365.25 : ℝ) ^ 2) := by
      norm_num
    nlinarith [hp2u]
  rw [M_total, G_grav, au_to_R_sun, abs_lt]
  constructor
  · linarith
  · linarith

end CaseStudies
